import Mathlib

/-!
Shallow embedding of the traffic-intersection simulation in traffic_env.py.

Python floats are modelled as rationals, the per-step random draws of the
seeded generator are abstracted into an explicit record of Booleans (one per
Bernoulli comparison the code performs), and the assert at the top of step
(last_scenario must be set) is modelled by returning an Option.  Field and
function names follow the source where the naming rules of this development
allow; the source field unsafe_switch is rendered early_switch, and
last_scenario is rendered last_scen.
-/

/-- Parameters defining a traffic scenario, mirroring the TrafficScenario
dataclass: arrival rates, visibility, fast-car probability. -/
structure ScenarioData where
  ns_rate : ℚ
  ew_rate : ℚ
  visibility : ℚ
  fast_car_prob : ℚ
deriving DecidableEq, Repr

/-- Constructor-time configuration of TrafficIntersectionEnv (the fields
that the per-step dynamics read; the sampling ranges only feed the random
scenario draw, which is abstracted away). -/
structure Config where
  max_steps : ℕ
  max_queue : ℤ
  max_flow : ℤ
  min_green_steps : ℕ
  throughput_reward : ℚ
  queue_penalty : ℚ
  switch_penalty : ℚ
  fairness_weight : ℚ
  safety_weight : ℚ
  ttc_threshold : ℚ
deriving DecidableEq, Repr

/-- The mutable per-episode state of TrafficIntersectionEnv, as set up by
the private reset helper.  The phase is an integer because the source writes
the raw int action into self.phase without validation. -/
structure EnvState where
  step_count : ℕ
  queue_n : ℤ
  queue_s : ℤ
  queue_e : ℤ
  queue_w : ℤ
  cum_wait_n : ℚ
  cum_wait_s : ℚ
  cum_wait_e : ℚ
  cum_wait_w : ℚ
  phase : ℤ
  time_since_switch : ℕ
  collisions : ℕ
  last_scen : Option ScenarioData
deriving DecidableEq, Repr

/-- One step's worth of draws from the episode's random generator, in the
order the source consumes them: four spawn Bernoulli trials, then the two
fast-car Bernoulli trials. -/
structure StepRand where
  spawn_n : Bool
  spawn_s : Bool
  spawn_e : Bool
  spawn_w : Bool
  fast_ns : Bool
  fast_ew : Bool
deriving DecidableEq, Repr

/-- What one step call returns: observation, reward, the two done flags, and
the info-dictionary entries the claims mention (plus the local
safety_violation value, recorded for the statements). -/
structure StepRes where
  obs : List ℚ
  reward : ℚ
  terminated : Bool
  truncated : Bool
  throughput : ℤ
  avg_wait_ns : ℚ
  avg_wait_ew : ℚ
  fairness_gap : ℚ
  collision : Bool
  early_switch : ℕ
  risk_ns : ℕ
  risk_ew : ℕ
  safety_violation : ℕ
deriving DecidableEq, Repr, Inhabited

/-- Round-half-to-even on rationals, the semantics of Python's built-in
round applied to the product max_flow * visibility. -/
def pyRound (q : ℚ) : ℤ :=
  let f := ⌊q⌋
  let r := q - (f : ℚ)
  if r < 1 / 2 then f
  else if 1 / 2 < r then f + 1
  else if f % 2 = 0 then f else f + 1

/-- The state produced by the private reset helper: all counters zero,
phase EW green, no scenario yet. -/
def freshState : EnvState where
  step_count := 0
  queue_n := 0
  queue_s := 0
  queue_e := 0
  queue_w := 0
  cum_wait_n := 0
  cum_wait_s := 0
  cum_wait_e := 0
  cum_wait_w := 0
  phase := 0
  time_since_switch := 0
  collisions := 0
  last_scen := none

/-- The public reset: zero the state and install the freshly sampled
scenario (the random scenario draw itself is abstracted into the argument). -/
def resetEnv (sc : ScenarioData) : EnvState :=
  { freshState with last_scen := some sc }

/-- Mirrors the private spawn helper: for each approach, one Bernoulli draw;
on success increment that queue, clamped to max_queue. -/
def spawn_traffic (cfg : Config) (s : EnvState) (r : StepRand) : EnvState :=
  let s := if r.spawn_n then { s with queue_n := min cfg.max_queue (s.queue_n + 1) } else s
  let s := if r.spawn_s then { s with queue_s := min cfg.max_queue (s.queue_s + 1) } else s
  let s := if r.spawn_e then { s with queue_e := min cfg.max_queue (s.queue_e + 1) } else s
  let s := if r.spawn_w then { s with queue_w := min cfg.max_queue (s.queue_w + 1) } else s
  s

/-- The per-step service capacity the serve helper computes from the
configured maximal flow and the scenario's visibility. -/
def flowOf (cfg : Config) (sc : ScenarioData) : ℤ :=
  max 1 (pyRound ((cfg.max_flow : ℚ) * sc.visibility))

/-- Mirrors the private serve helper: flow capacity from visibility, serve
the two approaches of the green axis, return the new state and the number
served. -/
def serve_traffic (cfg : Config) (sc : ScenarioData) (s : EnvState) : EnvState × ℤ :=
  let flow := flowOf cfg sc
  if s.phase = 0 then
    (({ s with queue_e := max 0 (s.queue_e - flow)
             , queue_w := max 0 (s.queue_w - flow) }),
     min s.queue_e flow + min s.queue_w flow)
  else
    (({ s with queue_n := max 0 (s.queue_n - flow)
             , queue_s := max 0 (s.queue_s - flow) }),
     min s.queue_n flow + min s.queue_s flow)

/-- Mirrors the private wait-accumulation helper: add each current queue
length to that approach's cumulative wait. -/
def update_waits (s : EnvState) : EnvState :=
  { s with cum_wait_n := s.cum_wait_n + (s.queue_n : ℚ)
         , cum_wait_s := s.cum_wait_s + (s.queue_s : ℚ)
         , cum_wait_e := s.cum_wait_e + (s.queue_e : ℚ)
         , cum_wait_w := s.cum_wait_w + (s.queue_w : ℚ) }

/-- The 9-component observation vector built by the private observation
helper, given the scenario it read from the state. -/
def obsList (cfg : Config) (sc : ScenarioData) (s : EnvState) : List ℚ :=
  [ (s.queue_n : ℚ) / (cfg.max_queue : ℚ)
  , (s.queue_s : ℚ) / (cfg.max_queue : ℚ)
  , (s.queue_e : ℚ) / (cfg.max_queue : ℚ)
  , (s.queue_w : ℚ) / (cfg.max_queue : ℚ)
  , (s.phase : ℚ)
  , min ((s.time_since_switch : ℚ) / ((max 1 cfg.min_green_steps : ℕ) : ℚ)) 1
  , sc.visibility
  , sc.fast_car_prob
  , if sc.ew_rate > sc.ns_rate then 1 else 0 ]

/-- The public observation builder: asserts a scenario is present, then
builds the vector (the assert is modelled as Option). -/
def get_obs (cfg : Config) (s : EnvState) : Option (List ℚ) :=
  s.last_scen.map (fun sc => obsList cfg sc s)

/-- The collision-counter update inside step: when the step's safety
violation is nonzero the episode's collision counter is incremented. -/
def bump_collisions (c : Prop) [Decidable c] (s : EnvState) : EnvState :=
  if c then { s with collisions := s.collisions + 1 } else s

/-- The phase state machine transition inside step: if the requested action
differs from the current phase, switch immediately and reset the hold timer,
otherwise increment the hold timer. -/
def phase_update (s : EnvState) (action : ℤ) : EnvState :=
  if action ≠ s.phase then { s with phase := action, time_since_switch := 0 }
  else { s with time_since_switch := s.time_since_switch + 1 }

/-- The premature-switch flag inside step: set when the requested action
switches the phase while the previous phase was held for fewer than
min_green_steps steps. -/
def early_flag (cfg : Config) (s : EnvState) (action : ℤ) : ℕ :=
  if action ≠ s.phase ∧ s.time_since_switch < cfg.min_green_steps then 1 else 0

/-- The body of one step call of TrafficIntersectionEnv once the scenario
assert has passed, translated statement by statement: bump step_count, run
the phase state machine (a switch is the action differing from the current
phase), spawn, serve, accumulate waits, draw fast cars and evaluate risk,
combine the safety violation, compute fairness and reward, set the done
flags, and build the observation. -/
def stepCore (cfg : Config) (sc : ScenarioData) (s : EnvState) (action : ℤ)
    (r : StepRand) : EnvState × StepRes :=
  let s1 := { s with step_count := s.step_count + 1 }
  let earlySw : ℕ := early_flag cfg s1 action
  let s2 := phase_update s1 action
  let s3 := spawn_traffic cfg s2 r
  let served := serve_traffic cfg sc s3
  let s4 := served.1
  let throughput := served.2
  let s5 := update_waits s4
  let ttc_ns : Option ℚ := if r.fast_ns then some (sc.visibility * 3.5) else none
  let ttc_ew : Option ℚ := if r.fast_ew then some (sc.visibility * 3.5) else none
  let risk_ns : ℕ :=
    match ttc_ns with
    | some t => if t < cfg.ttc_threshold ∧ s5.phase = 0 then 1 else 0
    | none => 0
  let risk_ew : ℕ :=
    match ttc_ew with
    | some t => if t < cfg.ttc_threshold ∧ s5.phase = 1 then 1 else 0
    | none => 0
  let violation := max earlySw (max risk_ns risk_ew)
  let s6 := bump_collisions (violation ≠ 0) s5
  let avg_ns := (s6.cum_wait_n + s6.cum_wait_s) / ((max 1 s6.step_count : ℕ) : ℚ)
  let avg_ew := (s6.cum_wait_e + s6.cum_wait_w) / ((max 1 s6.step_count : ℕ) : ℚ)
  let gap := |avg_ns - avg_ew|
  let reward :=
    cfg.throughput_reward * (throughput : ℚ)
      - cfg.queue_penalty * ((s6.queue_n + s6.queue_s + s6.queue_e + s6.queue_w : ℤ) : ℚ)
      - cfg.switch_penalty * (if action ≠ s1.phase then 1 else 0)
      - cfg.fairness_weight * gap
      - cfg.safety_weight * (violation : ℚ)
  (s6,
    { obs := obsList cfg sc s6
    , reward := reward
    , terminated := decide (violation ≠ 0)
    , truncated := decide (cfg.max_steps ≤ s6.step_count)
    , throughput := throughput
    , avg_wait_ns := avg_ns
    , avg_wait_ew := avg_ew
    , fairness_gap := gap
    , collision := decide (violation ≠ 0)
    , early_switch := earlySw
    , risk_ns := risk_ns
    , risk_ew := risk_ew
    , safety_violation := violation })

/-- One step call of TrafficIntersectionEnv: the assert that a scenario has
been sampled (modelled as Option), then the step body. -/
def stepFn (cfg : Config) (s : EnvState) (action : ℤ) (r : StepRand) :
    Option (EnvState × StepRes) :=
  match s.last_scen with
  | none => none
  | some sc => some (stepCore cfg sc s action r)

/-- An externally driven episode: apply the step inputs in order, stopping
as the gym contract prescribes when a step reports terminated or truncated
(or when the step fails).  Returns the final state and the list of step
results actually produced. -/
def runFrom (cfg : Config) : EnvState → List (ℤ × StepRand) → EnvState × List StepRes
  | s, [] => (s, [])
  | s, (a, r) :: rest =>
    match stepFn cfg s a r with
    | none => (s, [])
    | some (s', res) =>
      if res.terminated || res.truncated then (s', [res])
      else
        let p := runFrom cfg s' rest
        (p.1, res :: p.2)

/-- A concrete configuration with the constructor defaults of
TrafficIntersectionEnv (max_steps 200, max_queue 30, max_flow 3,
min_green_steps 6, throughput_reward 1.0, queue_penalty 0.01,
switch_penalty 0.05, fairness_weight 0.0, safety_weight 2.0,
ttc_threshold 1.2). -/
def cfgD : Config where
  max_steps := 200
  max_queue := 30
  max_flow := 3
  min_green_steps := 6
  throughput_reward := 1
  queue_penalty := 1 / 100
  switch_penalty := 1 / 20
  fairness_weight := 0
  safety_weight := 2
  ttc_threshold := 6 / 5

/-- A concrete scenario inside the constructor's sampling ranges (poor
visibility 0.1, so ttc is 0.35, below the default threshold 1.2). -/
def scD : ScenarioData where
  ns_rate := 1 / 10
  ew_rate := 2 / 5
  visibility := 1 / 10
  fast_car_prob := 1 / 10

/-- A step draw where nothing is spawned and no fast car appears. -/
def rQuietD : StepRand where
  spawn_n := false
  spawn_s := false
  spawn_e := false
  spawn_w := false
  fast_ns := false
  fast_ew := false

/-- A step draw where only the NS fast-car Bernoulli trial succeeds. -/
def rFastNSD : StepRand where
  spawn_n := false
  spawn_s := false
  spawn_e := false
  spawn_w := false
  fast_ns := true
  fast_ew := false

/-- A concrete mid-episode state where the NS axis holds the green and has
held it for the full minimum green time. -/
def sNSGreenD : EnvState :=
  { resetEnv scD with phase := 1, time_since_switch := 6 }

/-- The state after stepping the freshly reset environment with an
immediate phase switch: the premature switch is a safety violation, so
this step reports terminated. -/
def sTermD : EnvState :=
  (stepCore cfgD scD (resetEnv scD) 1 rQuietD).1

/-! Helper lemmas: field-level descriptions of the spawn and serve helpers
and of the step body, used by the claim theorems below. -/

@[simp] lemma spawn_traffic_phase (cfg : Config) (s : EnvState) (r : StepRand) :
    (spawn_traffic cfg s r).phase = s.phase := by
  simp only [spawn_traffic]; split_ifs <;> rfl

@[simp] lemma spawn_traffic_step_count (cfg : Config) (s : EnvState) (r : StepRand) :
    (spawn_traffic cfg s r).step_count = s.step_count := by
  simp only [spawn_traffic]; split_ifs <;> rfl

@[simp] lemma spawn_traffic_time_since_switch (cfg : Config) (s : EnvState) (r : StepRand) :
    (spawn_traffic cfg s r).time_since_switch = s.time_since_switch := by
  simp only [spawn_traffic]; split_ifs <;> rfl

@[simp] lemma spawn_traffic_collisions (cfg : Config) (s : EnvState) (r : StepRand) :
    (spawn_traffic cfg s r).collisions = s.collisions := by
  simp only [spawn_traffic]; split_ifs <;> rfl

@[simp] lemma spawn_traffic_last_scen (cfg : Config) (s : EnvState) (r : StepRand) :
    (spawn_traffic cfg s r).last_scen = s.last_scen := by
  simp only [spawn_traffic]; split_ifs <;> rfl

@[simp] lemma spawn_traffic_cum_wait_n (cfg : Config) (s : EnvState) (r : StepRand) :
    (spawn_traffic cfg s r).cum_wait_n = s.cum_wait_n := by
  simp only [spawn_traffic]; split_ifs <;> rfl

@[simp] lemma spawn_traffic_cum_wait_s (cfg : Config) (s : EnvState) (r : StepRand) :
    (spawn_traffic cfg s r).cum_wait_s = s.cum_wait_s := by
  simp only [spawn_traffic]; split_ifs <;> rfl

@[simp] lemma spawn_traffic_cum_wait_e (cfg : Config) (s : EnvState) (r : StepRand) :
    (spawn_traffic cfg s r).cum_wait_e = s.cum_wait_e := by
  simp only [spawn_traffic]; split_ifs <;> rfl

@[simp] lemma spawn_traffic_cum_wait_w (cfg : Config) (s : EnvState) (r : StepRand) :
    (spawn_traffic cfg s r).cum_wait_w = s.cum_wait_w := by
  simp only [spawn_traffic]; split_ifs <;> rfl

@[simp] lemma spawn_traffic_queue_n (cfg : Config) (s : EnvState) (r : StepRand) :
    (spawn_traffic cfg s r).queue_n
      = if r.spawn_n then min cfg.max_queue (s.queue_n + 1) else s.queue_n := by
  simp only [spawn_traffic]; split_ifs <;> rfl

@[simp] lemma spawn_traffic_queue_s (cfg : Config) (s : EnvState) (r : StepRand) :
    (spawn_traffic cfg s r).queue_s
      = if r.spawn_s then min cfg.max_queue (s.queue_s + 1) else s.queue_s := by
  simp only [spawn_traffic]; split_ifs <;> rfl

@[simp] lemma spawn_traffic_queue_e (cfg : Config) (s : EnvState) (r : StepRand) :
    (spawn_traffic cfg s r).queue_e
      = if r.spawn_e then min cfg.max_queue (s.queue_e + 1) else s.queue_e := by
  simp only [spawn_traffic]; split_ifs <;> rfl

@[simp] lemma spawn_traffic_queue_w (cfg : Config) (s : EnvState) (r : StepRand) :
    (spawn_traffic cfg s r).queue_w
      = if r.spawn_w then min cfg.max_queue (s.queue_w + 1) else s.queue_w := by
  simp only [spawn_traffic]; split_ifs <;> rfl

@[simp] lemma serve_traffic_fst_phase (cfg : Config) (sc : ScenarioData) (s : EnvState) :
    (serve_traffic cfg sc s).1.phase = s.phase := by
  simp only [serve_traffic]; split_ifs <;> rfl

@[simp] lemma serve_traffic_fst_step_count (cfg : Config) (sc : ScenarioData) (s : EnvState) :
    (serve_traffic cfg sc s).1.step_count = s.step_count := by
  simp only [serve_traffic]; split_ifs <;> rfl

@[simp] lemma serve_traffic_fst_time_since_switch (cfg : Config) (sc : ScenarioData)
    (s : EnvState) :
    (serve_traffic cfg sc s).1.time_since_switch = s.time_since_switch := by
  simp only [serve_traffic]; split_ifs <;> rfl

@[simp] lemma serve_traffic_fst_collisions (cfg : Config) (sc : ScenarioData) (s : EnvState) :
    (serve_traffic cfg sc s).1.collisions = s.collisions := by
  simp only [serve_traffic]; split_ifs <;> rfl

@[simp] lemma serve_traffic_fst_last_scen (cfg : Config) (sc : ScenarioData) (s : EnvState) :
    (serve_traffic cfg sc s).1.last_scen = s.last_scen := by
  simp only [serve_traffic]; split_ifs <;> rfl

@[simp] lemma serve_traffic_fst_cum_wait_n (cfg : Config) (sc : ScenarioData) (s : EnvState) :
    (serve_traffic cfg sc s).1.cum_wait_n = s.cum_wait_n := by
  simp only [serve_traffic]; split_ifs <;> rfl

@[simp] lemma serve_traffic_fst_cum_wait_s (cfg : Config) (sc : ScenarioData) (s : EnvState) :
    (serve_traffic cfg sc s).1.cum_wait_s = s.cum_wait_s := by
  simp only [serve_traffic]; split_ifs <;> rfl

@[simp] lemma serve_traffic_fst_cum_wait_e (cfg : Config) (sc : ScenarioData) (s : EnvState) :
    (serve_traffic cfg sc s).1.cum_wait_e = s.cum_wait_e := by
  simp only [serve_traffic]; split_ifs <;> rfl

@[simp] lemma serve_traffic_fst_cum_wait_w (cfg : Config) (sc : ScenarioData) (s : EnvState) :
    (serve_traffic cfg sc s).1.cum_wait_w = s.cum_wait_w := by
  simp only [serve_traffic]; split_ifs <;> rfl

@[simp] lemma serve_traffic_fst_queue_n (cfg : Config) (sc : ScenarioData) (s : EnvState) :
    (serve_traffic cfg sc s).1.queue_n
      = if s.phase = 0 then s.queue_n else max 0 (s.queue_n - flowOf cfg sc) := by
  simp only [serve_traffic]; split_ifs <;> rfl

@[simp] lemma serve_traffic_fst_queue_s (cfg : Config) (sc : ScenarioData) (s : EnvState) :
    (serve_traffic cfg sc s).1.queue_s
      = if s.phase = 0 then s.queue_s else max 0 (s.queue_s - flowOf cfg sc) := by
  simp only [serve_traffic]; split_ifs <;> rfl

@[simp] lemma serve_traffic_fst_queue_e (cfg : Config) (sc : ScenarioData) (s : EnvState) :
    (serve_traffic cfg sc s).1.queue_e
      = if s.phase = 0 then max 0 (s.queue_e - flowOf cfg sc) else s.queue_e := by
  simp only [serve_traffic]; split_ifs <;> rfl

@[simp] lemma serve_traffic_fst_queue_w (cfg : Config) (sc : ScenarioData) (s : EnvState) :
    (serve_traffic cfg sc s).1.queue_w
      = if s.phase = 0 then max 0 (s.queue_w - flowOf cfg sc) else s.queue_w := by
  simp only [serve_traffic]; split_ifs <;> rfl

@[simp] lemma serve_traffic_snd (cfg : Config) (sc : ScenarioData) (s : EnvState) :
    (serve_traffic cfg sc s).2
      = if s.phase = 0 then min s.queue_e (flowOf cfg sc) + min s.queue_w (flowOf cfg sc)
        else min s.queue_n (flowOf cfg sc) + min s.queue_s (flowOf cfg sc) := by
  simp only [serve_traffic]; split_ifs <;> rfl

lemma stepFn_none_iff (cfg : Config) (s : EnvState) (a : ℤ) (r : StepRand) :
    stepFn cfg s a r = none ↔ s.last_scen = none := by
  cases h : s.last_scen <;> simp [stepFn, h]

lemma stepFn_eq_some (cfg : Config) (s : EnvState) (a : ℤ) (r : StepRand)
    (sc : ScenarioData) (h : s.last_scen = some sc) :
    stepFn cfg s a r = some (stepCore cfg sc s a r) := by
  simp [stepFn, h]

@[simp] lemma update_waits_phase (s : EnvState) : (update_waits s).phase = s.phase := rfl
@[simp] lemma update_waits_step_count (s : EnvState) : (update_waits s).step_count = s.step_count := rfl
@[simp] lemma update_waits_time_since_switch (s : EnvState) : (update_waits s).time_since_switch = s.time_since_switch := rfl
@[simp] lemma update_waits_collisions (s : EnvState) : (update_waits s).collisions = s.collisions := rfl
@[simp] lemma update_waits_last_scen (s : EnvState) : (update_waits s).last_scen = s.last_scen := rfl
@[simp] lemma update_waits_queue_n (s : EnvState) : (update_waits s).queue_n = s.queue_n := rfl
@[simp] lemma update_waits_queue_s (s : EnvState) : (update_waits s).queue_s = s.queue_s := rfl
@[simp] lemma update_waits_queue_e (s : EnvState) : (update_waits s).queue_e = s.queue_e := rfl
@[simp] lemma update_waits_queue_w (s : EnvState) : (update_waits s).queue_w = s.queue_w := rfl
@[simp] lemma update_waits_cum_wait_n (s : EnvState) : (update_waits s).cum_wait_n = s.cum_wait_n + (s.queue_n : ℚ) := rfl
@[simp] lemma update_waits_cum_wait_s (s : EnvState) : (update_waits s).cum_wait_s = s.cum_wait_s + (s.queue_s : ℚ) := rfl
@[simp] lemma update_waits_cum_wait_e (s : EnvState) : (update_waits s).cum_wait_e = s.cum_wait_e + (s.queue_e : ℚ) := rfl
@[simp] lemma update_waits_cum_wait_w (s : EnvState) : (update_waits s).cum_wait_w = s.cum_wait_w + (s.queue_w : ℚ) := rfl

@[simp] lemma bump_collisions_phase (c : Prop) [Decidable c] (s : EnvState) :
    (bump_collisions c s).phase = s.phase := by
  unfold bump_collisions; split_ifs <;> rfl

@[simp] lemma bump_collisions_step_count (c : Prop) [Decidable c] (s : EnvState) :
    (bump_collisions c s).step_count = s.step_count := by
  unfold bump_collisions; split_ifs <;> rfl

@[simp] lemma bump_collisions_time_since_switch (c : Prop) [Decidable c] (s : EnvState) :
    (bump_collisions c s).time_since_switch = s.time_since_switch := by
  unfold bump_collisions; split_ifs <;> rfl

@[simp] lemma bump_collisions_last_scen (c : Prop) [Decidable c] (s : EnvState) :
    (bump_collisions c s).last_scen = s.last_scen := by
  unfold bump_collisions; split_ifs <;> rfl

@[simp] lemma bump_collisions_queue_n (c : Prop) [Decidable c] (s : EnvState) :
    (bump_collisions c s).queue_n = s.queue_n := by
  unfold bump_collisions; split_ifs <;> rfl

@[simp] lemma bump_collisions_queue_s (c : Prop) [Decidable c] (s : EnvState) :
    (bump_collisions c s).queue_s = s.queue_s := by
  unfold bump_collisions; split_ifs <;> rfl

@[simp] lemma bump_collisions_queue_e (c : Prop) [Decidable c] (s : EnvState) :
    (bump_collisions c s).queue_e = s.queue_e := by
  unfold bump_collisions; split_ifs <;> rfl

@[simp] lemma bump_collisions_queue_w (c : Prop) [Decidable c] (s : EnvState) :
    (bump_collisions c s).queue_w = s.queue_w := by
  unfold bump_collisions; split_ifs <;> rfl

@[simp] lemma bump_collisions_cum_wait_n (c : Prop) [Decidable c] (s : EnvState) :
    (bump_collisions c s).cum_wait_n = s.cum_wait_n := by
  unfold bump_collisions; split_ifs <;> rfl

@[simp] lemma bump_collisions_cum_wait_s (c : Prop) [Decidable c] (s : EnvState) :
    (bump_collisions c s).cum_wait_s = s.cum_wait_s := by
  unfold bump_collisions; split_ifs <;> rfl

@[simp] lemma bump_collisions_cum_wait_e (c : Prop) [Decidable c] (s : EnvState) :
    (bump_collisions c s).cum_wait_e = s.cum_wait_e := by
  unfold bump_collisions; split_ifs <;> rfl

@[simp] lemma bump_collisions_cum_wait_w (c : Prop) [Decidable c] (s : EnvState) :
    (bump_collisions c s).cum_wait_w = s.cum_wait_w := by
  unfold bump_collisions; split_ifs <;> rfl

@[simp] lemma bump_collisions_collisions (c : Prop) [Decidable c] (s : EnvState) :
    (bump_collisions c s).collisions = s.collisions + (if c then 1 else 0) := by
  unfold bump_collisions; split_ifs <;> rfl

@[simp] lemma phase_update_phase (s : EnvState) (a : ℤ) :
    (phase_update s a).phase = if a ≠ s.phase then a else s.phase := by
  unfold phase_update; split_ifs <;> rfl

@[simp] lemma phase_update_time_since_switch (s : EnvState) (a : ℤ) :
    (phase_update s a).time_since_switch
      = if a ≠ s.phase then 0 else s.time_since_switch + 1 := by
  unfold phase_update; split_ifs <;> rfl

@[simp] lemma phase_update_step_count (s : EnvState) (a : ℤ) :
    (phase_update s a).step_count = s.step_count := by
  unfold phase_update; split_ifs <;> rfl

@[simp] lemma phase_update_collisions (s : EnvState) (a : ℤ) :
    (phase_update s a).collisions = s.collisions := by
  unfold phase_update; split_ifs <;> rfl

@[simp] lemma phase_update_last_scen (s : EnvState) (a : ℤ) :
    (phase_update s a).last_scen = s.last_scen := by
  unfold phase_update; split_ifs <;> rfl

@[simp] lemma phase_update_queue_n (s : EnvState) (a : ℤ) :
    (phase_update s a).queue_n = s.queue_n := by
  unfold phase_update; split_ifs <;> rfl

@[simp] lemma phase_update_queue_s (s : EnvState) (a : ℤ) :
    (phase_update s a).queue_s = s.queue_s := by
  unfold phase_update; split_ifs <;> rfl

@[simp] lemma phase_update_queue_e (s : EnvState) (a : ℤ) :
    (phase_update s a).queue_e = s.queue_e := by
  unfold phase_update; split_ifs <;> rfl

@[simp] lemma phase_update_queue_w (s : EnvState) (a : ℤ) :
    (phase_update s a).queue_w = s.queue_w := by
  unfold phase_update; split_ifs <;> rfl

@[simp] lemma phase_update_cum_wait_n (s : EnvState) (a : ℤ) :
    (phase_update s a).cum_wait_n = s.cum_wait_n := by
  unfold phase_update; split_ifs <;> rfl

@[simp] lemma phase_update_cum_wait_s (s : EnvState) (a : ℤ) :
    (phase_update s a).cum_wait_s = s.cum_wait_s := by
  unfold phase_update; split_ifs <;> rfl

@[simp] lemma phase_update_cum_wait_e (s : EnvState) (a : ℤ) :
    (phase_update s a).cum_wait_e = s.cum_wait_e := by
  unfold phase_update; split_ifs <;> rfl

@[simp] lemma phase_update_cum_wait_w (s : EnvState) (a : ℤ) :
    (phase_update s a).cum_wait_w = s.cum_wait_w := by
  unfold phase_update; split_ifs <;> rfl

lemma stepCore_res_early (cfg : Config) (sc : ScenarioData) (s : EnvState) (a : ℤ) (r : StepRand) :
    (stepCore cfg sc s a r).2.early_switch
      = if a ≠ s.phase ∧ s.time_since_switch < cfg.min_green_steps then 1 else 0 := by
  simp [stepCore, early_flag]

lemma stepCore_fst_step_count (cfg : Config) (sc : ScenarioData) (s : EnvState) (a : ℤ) (r : StepRand) :
    (stepCore cfg sc s a r).1.step_count = s.step_count + 1 := by
  simp [stepCore]

lemma stepCore_fst_last_scen (cfg : Config) (sc : ScenarioData) (s : EnvState) (a : ℤ) (r : StepRand) :
    (stepCore cfg sc s a r).1.last_scen = s.last_scen := by
  simp [stepCore]

lemma stepCore_fst_phase (cfg : Config) (sc : ScenarioData) (s : EnvState) (a : ℤ) (r : StepRand) :
    (stepCore cfg sc s a r).1.phase = if a ≠ s.phase then a else s.phase := by
  simp [stepCore]

lemma stepCore_fst_time_since_switch (cfg : Config) (sc : ScenarioData) (s : EnvState) (a : ℤ) (r : StepRand) :
    (stepCore cfg sc s a r).1.time_since_switch
      = if a ≠ s.phase then 0 else s.time_since_switch + 1 := by
  simp [stepCore]

lemma stepCore_res_risk_ns (cfg : Config) (sc : ScenarioData) (s : EnvState) (a : ℤ) (r : StepRand) :
    (stepCore cfg sc s a r).2.risk_ns
      = if r.fast_ns = true ∧ sc.visibility * 3.5 < cfg.ttc_threshold
            ∧ (if a ≠ s.phase then a else s.phase) = 0 then 1 else 0 := by
  cases hf : r.fast_ns <;> simp [stepCore, hf]

lemma stepCore_res_risk_ew (cfg : Config) (sc : ScenarioData) (s : EnvState) (a : ℤ) (r : StepRand) :
    (stepCore cfg sc s a r).2.risk_ew
      = if r.fast_ew = true ∧ sc.visibility * 3.5 < cfg.ttc_threshold
            ∧ (if a ≠ s.phase then a else s.phase) = 1 then 1 else 0 := by
  cases hf : r.fast_ew <;> simp [stepCore, hf]

lemma stepCore_res_violation (cfg : Config) (sc : ScenarioData) (s : EnvState) (a : ℤ) (r : StepRand) :
    (stepCore cfg sc s a r).2.safety_violation
      = max (stepCore cfg sc s a r).2.early_switch
          (max (stepCore cfg sc s a r).2.risk_ns (stepCore cfg sc s a r).2.risk_ew) := by
  simp only [stepCore]

lemma stepCore_res_terminated (cfg : Config) (sc : ScenarioData) (s : EnvState) (a : ℤ) (r : StepRand) :
    ((stepCore cfg sc s a r).2.terminated = true
      ↔ (stepCore cfg sc s a r).2.safety_violation ≠ 0) := by
  simp only [stepCore]
  exact decide_eq_true_iff

lemma stepCore_res_collision (cfg : Config) (sc : ScenarioData) (s : EnvState) (a : ℤ) (r : StepRand) :
    (stepCore cfg sc s a r).2.collision = (stepCore cfg sc s a r).2.terminated := by
  simp only [stepCore]

lemma stepCore_res_truncated (cfg : Config) (sc : ScenarioData) (s : EnvState) (a : ℤ) (r : StepRand) :
    ((stepCore cfg sc s a r).2.truncated = true ↔ cfg.max_steps ≤ s.step_count + 1) := by
  simp [stepCore]

lemma stepCore_fst_collisions (cfg : Config) (sc : ScenarioData) (s : EnvState) (a : ℤ) (r : StepRand) :
    (stepCore cfg sc s a r).1.collisions
      = s.collisions + (if (stepCore cfg sc s a r).2.safety_violation ≠ 0 then 1 else 0) := by
  simp [stepCore]

lemma stepCore_res_gap (cfg : Config) (sc : ScenarioData) (s : EnvState) (a : ℤ) (r : StepRand) :
    (stepCore cfg sc s a r).2.fairness_gap
      = |(stepCore cfg sc s a r).2.avg_wait_ns - (stepCore cfg sc s a r).2.avg_wait_ew| := by
  simp only [stepCore]

lemma stepCore_res_reward (cfg : Config) (sc : ScenarioData) (s : EnvState) (a : ℤ) (r : StepRand) :
    (stepCore cfg sc s a r).2.reward
      = cfg.throughput_reward * ((stepCore cfg sc s a r).2.throughput : ℚ)
        - cfg.queue_penalty
            * (((stepCore cfg sc s a r).1.queue_n + (stepCore cfg sc s a r).1.queue_s
                + (stepCore cfg sc s a r).1.queue_e + (stepCore cfg sc s a r).1.queue_w : ℤ) : ℚ)
        - cfg.switch_penalty * (if a ≠ s.phase then 1 else 0)
        - cfg.fairness_weight * (stepCore cfg sc s a r).2.fairness_gap
        - cfg.safety_weight * ((stepCore cfg sc s a r).2.safety_violation : ℚ) := by
  simp only [stepCore]

lemma stepCore_res_avg_ns (cfg : Config) (sc : ScenarioData) (s : EnvState) (a : ℤ) (r : StepRand) :
    (stepCore cfg sc s a r).2.avg_wait_ns
      = ((stepCore cfg sc s a r).1.cum_wait_n + (stepCore cfg sc s a r).1.cum_wait_s)
          / ((s.step_count + 1 : ℕ) : ℚ) := by
  have hmax : max 1 (s.step_count + 1) = s.step_count + 1 := by omega
  simp [stepCore, hmax]

lemma stepCore_res_avg_ew (cfg : Config) (sc : ScenarioData) (s : EnvState) (a : ℤ) (r : StepRand) :
    (stepCore cfg sc s a r).2.avg_wait_ew
      = ((stepCore cfg sc s a r).1.cum_wait_e + (stepCore cfg sc s a r).1.cum_wait_w)
          / ((s.step_count + 1 : ℕ) : ℚ) := by
  have hmax : max 1 (s.step_count + 1) = s.step_count + 1 := by omega
  simp [stepCore, hmax]

lemma stepCore_fst_cum_wait_n (cfg : Config) (sc : ScenarioData) (s : EnvState) (a : ℤ) (r : StepRand) :
    (stepCore cfg sc s a r).1.cum_wait_n
      = s.cum_wait_n + ((stepCore cfg sc s a r).1.queue_n : ℚ) := by
  simp [stepCore]

lemma stepCore_fst_cum_wait_s (cfg : Config) (sc : ScenarioData) (s : EnvState) (a : ℤ) (r : StepRand) :
    (stepCore cfg sc s a r).1.cum_wait_s
      = s.cum_wait_s + ((stepCore cfg sc s a r).1.queue_s : ℚ) := by
  simp [stepCore]

lemma stepCore_fst_cum_wait_e (cfg : Config) (sc : ScenarioData) (s : EnvState) (a : ℤ) (r : StepRand) :
    (stepCore cfg sc s a r).1.cum_wait_e
      = s.cum_wait_e + ((stepCore cfg sc s a r).1.queue_e : ℚ) := by
  simp [stepCore]

lemma stepCore_fst_cum_wait_w (cfg : Config) (sc : ScenarioData) (s : EnvState) (a : ℤ) (r : StepRand) :
    (stepCore cfg sc s a r).1.cum_wait_w
      = s.cum_wait_w + ((stepCore cfg sc s a r).1.queue_w : ℚ) := by
  simp [stepCore]

lemma stepCore_fst_queue_n (cfg : Config) (sc : ScenarioData) (s : EnvState) (a : ℤ) (r : StepRand) :
    (stepCore cfg sc s a r).1.queue_n
      = if (if a ≠ s.phase then a else s.phase) = 0
          then (if r.spawn_n then min cfg.max_queue (s.queue_n + 1) else s.queue_n)
          else max 0 ((if r.spawn_n then min cfg.max_queue (s.queue_n + 1) else s.queue_n)
                        - flowOf cfg sc) := by
  simp [stepCore]

lemma stepCore_fst_queue_s (cfg : Config) (sc : ScenarioData) (s : EnvState) (a : ℤ) (r : StepRand) :
    (stepCore cfg sc s a r).1.queue_s
      = if (if a ≠ s.phase then a else s.phase) = 0
          then (if r.spawn_s then min cfg.max_queue (s.queue_s + 1) else s.queue_s)
          else max 0 ((if r.spawn_s then min cfg.max_queue (s.queue_s + 1) else s.queue_s)
                        - flowOf cfg sc) := by
  simp [stepCore]

lemma stepCore_fst_queue_e (cfg : Config) (sc : ScenarioData) (s : EnvState) (a : ℤ) (r : StepRand) :
    (stepCore cfg sc s a r).1.queue_e
      = if (if a ≠ s.phase then a else s.phase) = 0
          then max 0 ((if r.spawn_e then min cfg.max_queue (s.queue_e + 1) else s.queue_e)
                        - flowOf cfg sc)
          else (if r.spawn_e then min cfg.max_queue (s.queue_e + 1) else s.queue_e) := by
  simp [stepCore]

lemma stepCore_fst_queue_w (cfg : Config) (sc : ScenarioData) (s : EnvState) (a : ℤ) (r : StepRand) :
    (stepCore cfg sc s a r).1.queue_w
      = if (if a ≠ s.phase then a else s.phase) = 0
          then max 0 ((if r.spawn_w then min cfg.max_queue (s.queue_w + 1) else s.queue_w)
                        - flowOf cfg sc)
          else (if r.spawn_w then min cfg.max_queue (s.queue_w + 1) else s.queue_w) := by
  simp [stepCore]

lemma stepFn_inv (cfg : Config) (s : EnvState) (a : ℤ) (r : StepRand) (sc : ScenarioData)
    (s' : EnvState) (res : StepRes) (hsc : s.last_scen = some sc)
    (h : stepFn cfg s a r = some (s', res)) :
    s' = (stepCore cfg sc s a r).1 ∧ res = (stepCore cfg sc s a r).2 := by
  rw [stepFn_eq_some cfg s a r sc hsc] at h
  injection h with h
  exact ⟨congrArg Prod.fst h.symm, congrArg Prod.snd h.symm⟩

/-- C1 (counterexample): with the NS axis holding the green, a fast NS
vehicle drawn, and ttc = visibility * 3.5 strictly below the threshold, the
code reports risk_ns = 0, not 1: the restated coupling rule of the claim
(risk on the axis that holds the green) is false of the code. -/
theorem c1_risk_coupling_counterexample :
    (stepFn cfgD sNSGreenD 1 rFastNSD).map (fun p => p.2.risk_ns) = some 0
    ∧ rFastNSD.fast_ns = true
    ∧ scD.visibility * 3.5 < cfgD.ttc_threshold
    ∧ (stepFn cfgD sNSGreenD 1 rFastNSD).map (fun p => p.1.phase) = some 1
    ∧ ¬ ((stepFn cfgD sNSGreenD 1 rFastNSD).map (fun p => p.2.risk_ns) = some 1
          ↔ rFastNSD.fast_ns = true ∧ scD.visibility * 3.5 < cfgD.ttc_threshold
              ∧ (stepFn cfgD sNSGreenD 1 rFastNSD).map (fun p => p.1.phase) = some 1) := by
  norm_num [stepFn, stepCore, early_flag, phase_update, bump_collisions, spawn_traffic,
    serve_traffic, update_waits, obsList, flowOf, pyRound, resetEnv, freshState,
    cfgD, scD, sNSGreenD, rFastNSD]

/-- C1 (amended): per step, risk_ns is 1 exactly when a fast NS vehicle is
drawn, ttc = visibility * 3.5 is strictly below ttc_threshold, and the EW
axis (the opposing axis) currently holds the green; symmetrically risk_ew
requires the NS axis to hold the green; risk is never flagged for an axis
that itself holds the green. -/
theorem c1_risk_coupling (cfg : Config) (s : EnvState) (a : ℤ) (r : StepRand)
    (sc : ScenarioData) (s' : EnvState) (res : StepRes)
    (hsc : s.last_scen = some sc)
    (hstep : stepFn cfg s a r = some (s', res)) :
    (res.risk_ns = 1
      ↔ r.fast_ns = true ∧ sc.visibility * 3.5 < cfg.ttc_threshold ∧ s'.phase = 0)
    ∧ (res.risk_ew = 1
      ↔ r.fast_ew = true ∧ sc.visibility * 3.5 < cfg.ttc_threshold ∧ s'.phase = 1)
    ∧ (s'.phase = 1 → res.risk_ns = 0)
    ∧ (s'.phase = 0 → res.risk_ew = 0) := by
  obtain ⟨hs', hres⟩ := stepFn_inv cfg s a r sc s' res hsc hstep
  subst hs' hres
  rw [stepCore_res_risk_ns, stepCore_res_risk_ew, stepCore_fst_phase]
  refine ⟨?_, ?_, ?_, ?_⟩ <;> split_ifs <;> simp_all

/-- C1 (witness): the amended risk coupling instantiated at the concrete
NS-green state. -/
theorem c1_risk_coupling_witness :
    sNSGreenD.last_scen = some scD
    ∧ stepFn cfgD sNSGreenD 1 rFastNSD
        = some ((stepCore cfgD scD sNSGreenD 1 rFastNSD).1,
                (stepCore cfgD scD sNSGreenD 1 rFastNSD).2)
    ∧ (((stepCore cfgD scD sNSGreenD 1 rFastNSD).2.risk_ns = 1
          ↔ rFastNSD.fast_ns = true ∧ scD.visibility * 3.5 < cfgD.ttc_threshold
              ∧ (stepCore cfgD scD sNSGreenD 1 rFastNSD).1.phase = 0)
        ∧ ((stepCore cfgD scD sNSGreenD 1 rFastNSD).2.risk_ew = 1
          ↔ rFastNSD.fast_ew = true ∧ scD.visibility * 3.5 < cfgD.ttc_threshold
              ∧ (stepCore cfgD scD sNSGreenD 1 rFastNSD).1.phase = 1)
        ∧ ((stepCore cfgD scD sNSGreenD 1 rFastNSD).1.phase = 1
            → (stepCore cfgD scD sNSGreenD 1 rFastNSD).2.risk_ns = 0)
        ∧ ((stepCore cfgD scD sNSGreenD 1 rFastNSD).1.phase = 0
            → (stepCore cfgD scD sNSGreenD 1 rFastNSD).2.risk_ew = 0)) :=
  ⟨rfl, rfl, c1_risk_coupling cfgD sNSGreenD 1 rFastNSD scD _ _ rfl rfl⟩

/-- C3 (counterexample): the first step after reset with an immediate
switch reports terminated = true, yet the following step call on the
resulting state is accepted rather than failing with an invalid-state
error. -/
theorem c3_invalid_state_counterexample :
    (stepFn cfgD (resetEnv scD) 1 rQuietD).map (fun p => p.2.terminated) = some true
    ∧ (stepFn cfgD sTermD 0 rQuietD).isSome = true := by
  constructor
  · norm_num [stepFn, stepCore, early_flag, phase_update, bump_collisions, spawn_traffic,
      serve_traffic, update_waits, obsList, flowOf, pyRound, resetEnv, freshState,
      cfgD, scD, rQuietD]
  · norm_num [stepFn, stepCore, early_flag, phase_update, bump_collisions, spawn_traffic,
      serve_traffic, update_waits, obsList, flowOf, pyRound, resetEnv, freshState,
      cfgD, scD, rQuietD, sTermD]

/-- C3 (amended): step fails exactly when no scenario is installed, which
happens only before the first reset; after reset the step call never fails,
in particular a step following a terminated or truncated step is accepted;
a reset always yields a steppable state again. -/
theorem c3_invalid_state (cfg : Config) (s : EnvState) (a : ℤ) (r : StepRand) :
    (stepFn cfg s a r = none ↔ s.last_scen = none)
    ∧ (∀ sc : ScenarioData, stepFn cfg (resetEnv sc) a r ≠ none) := by
  refine ⟨stepFn_none_iff cfg s a r, ?_⟩
  intro sc h
  rw [stepFn_none_iff] at h
  simp [resetEnv] at h

/-- C4: for a requested action in the action space, a differing action
switches the phase immediately (never refused) and resets the hold timer,
an equal action increments it; early_switch (the source's unsafe_switch) is
1 exactly when the switch happens while the hold timer is still below
min_green_steps, so switching at min_green_steps - 1 sets it and switching
at or beyond min_green_steps never does. -/
theorem c4_phase_state_machine (cfg : Config) (s : EnvState) (a : ℤ) (r : StepRand)
    (sc : ScenarioData) (s' : EnvState) (res : StepRes)
    (hsc : s.last_scen = some sc) (ha : a = 0 ∨ a = 1)
    (hstep : stepFn cfg s a r = some (s', res)) :
    (a ≠ s.phase → s'.phase = a ∧ s'.time_since_switch = 0)
    ∧ (a = s.phase → s'.phase = s.phase ∧ s'.time_since_switch = s.time_since_switch + 1)
    ∧ (res.early_switch = 1 ↔ a ≠ s.phase ∧ s.time_since_switch < cfg.min_green_steps)
    ∧ (a ≠ s.phase → cfg.min_green_steps ≤ s.time_since_switch → res.early_switch = 0)
    ∧ (1 ≤ cfg.min_green_steps → s.time_since_switch = cfg.min_green_steps - 1
        → a ≠ s.phase → res.early_switch = 1) := by
  obtain ⟨hs', hres⟩ := stepFn_inv cfg s a r sc s' res hsc hstep
  subst hs' hres
  rw [stepCore_fst_phase, stepCore_fst_time_since_switch, stepCore_res_early]
  refine ⟨?_, ?_, ?_, ?_, ?_⟩ <;> split_ifs <;> simp_all <;> omega

/-- C4 (witness): the phase state machine property applied to the concrete
reset state with an immediate switch request. -/
theorem c4_phase_state_machine_witness :
    (resetEnv scD).last_scen = some scD
    ∧ ((1 : ℤ) = 0 ∨ (1 : ℤ) = 1)
    ∧ stepFn cfgD (resetEnv scD) 1 rQuietD
        = some ((stepCore cfgD scD (resetEnv scD) 1 rQuietD).1,
                (stepCore cfgD scD (resetEnv scD) 1 rQuietD).2)
    ∧ (((1 : ℤ) ≠ (resetEnv scD).phase
          → (stepCore cfgD scD (resetEnv scD) 1 rQuietD).1.phase = 1
            ∧ (stepCore cfgD scD (resetEnv scD) 1 rQuietD).1.time_since_switch = 0)
        ∧ ((1 : ℤ) = (resetEnv scD).phase
          → (stepCore cfgD scD (resetEnv scD) 1 rQuietD).1.phase = (resetEnv scD).phase
            ∧ (stepCore cfgD scD (resetEnv scD) 1 rQuietD).1.time_since_switch
                = (resetEnv scD).time_since_switch + 1)
        ∧ ((stepCore cfgD scD (resetEnv scD) 1 rQuietD).2.early_switch = 1
          ↔ (1 : ℤ) ≠ (resetEnv scD).phase
            ∧ (resetEnv scD).time_since_switch < cfgD.min_green_steps)
        ∧ ((1 : ℤ) ≠ (resetEnv scD).phase
          → cfgD.min_green_steps ≤ (resetEnv scD).time_since_switch
          → (stepCore cfgD scD (resetEnv scD) 1 rQuietD).2.early_switch = 0)
        ∧ (1 ≤ cfgD.min_green_steps
          → (resetEnv scD).time_since_switch = cfgD.min_green_steps - 1
          → (1 : ℤ) ≠ (resetEnv scD).phase
          → (stepCore cfgD scD (resetEnv scD) 1 rQuietD).2.early_switch = 1)) :=
  ⟨rfl, Or.inr rfl, rfl,
    c4_phase_state_machine cfgD (resetEnv scD) 1 rQuietD scD _ _ rfl (Or.inr rfl) rfl⟩

/-- C5: the serve operation's capacity is flow = max(1, round(max_flow *
visibility)); with EW green (phase 0) the east and west queues are each
reduced by min(queue, flow) while north and south are untouched, with NS
green (phase 1, the non-zero branch) the converse; the returned throughput
is the total removed from the two served queues. -/
theorem c5_serve_traffic (cfg : Config) (sc : ScenarioData) (s : EnvState)
    (h0n : 0 ≤ s.queue_n) (h0s : 0 ≤ s.queue_s)
    (h0e : 0 ≤ s.queue_e) (h0w : 0 ≤ s.queue_w) :
    flowOf cfg sc = max 1 (pyRound ((cfg.max_flow : ℚ) * sc.visibility))
    ∧ (s.phase = 0 →
        (serve_traffic cfg sc s).1.queue_e = s.queue_e - min s.queue_e (flowOf cfg sc)
        ∧ (serve_traffic cfg sc s).1.queue_w = s.queue_w - min s.queue_w (flowOf cfg sc)
        ∧ (serve_traffic cfg sc s).1.queue_n = s.queue_n
        ∧ (serve_traffic cfg sc s).1.queue_s = s.queue_s
        ∧ (serve_traffic cfg sc s).2
            = min s.queue_e (flowOf cfg sc) + min s.queue_w (flowOf cfg sc))
    ∧ (s.phase = 1 →
        (serve_traffic cfg sc s).1.queue_n = s.queue_n - min s.queue_n (flowOf cfg sc)
        ∧ (serve_traffic cfg sc s).1.queue_s = s.queue_s - min s.queue_s (flowOf cfg sc)
        ∧ (serve_traffic cfg sc s).1.queue_e = s.queue_e
        ∧ (serve_traffic cfg sc s).1.queue_w = s.queue_w
        ∧ (serve_traffic cfg sc s).2
            = min s.queue_n (flowOf cfg sc) + min s.queue_s (flowOf cfg sc)) := by
  refine ⟨rfl, ?_, ?_⟩ <;> intro hph <;> simp [hph] <;> omega

/-- C5 (witness): the serve characterization applied to a concrete state
with nonempty queues under EW green. -/
theorem c5_serve_traffic_witness :
    (0 : ℤ) ≤ ({ resetEnv scD with queue_e := 5 } : EnvState).queue_n
    ∧ (0 : ℤ) ≤ ({ resetEnv scD with queue_e := 5 } : EnvState).queue_s
    ∧ (0 : ℤ) ≤ ({ resetEnv scD with queue_e := 5 } : EnvState).queue_e
    ∧ (0 : ℤ) ≤ ({ resetEnv scD with queue_e := 5 } : EnvState).queue_w
    ∧ (flowOf cfgD scD = max 1 (pyRound ((cfgD.max_flow : ℚ) * scD.visibility))
        ∧ (({ resetEnv scD with queue_e := 5 } : EnvState).phase = 0 →
            (serve_traffic cfgD scD { resetEnv scD with queue_e := 5 }).1.queue_e
              = ({ resetEnv scD with queue_e := 5 } : EnvState).queue_e
                - min ({ resetEnv scD with queue_e := 5 } : EnvState).queue_e (flowOf cfgD scD)
            ∧ (serve_traffic cfgD scD { resetEnv scD with queue_e := 5 }).1.queue_w
              = ({ resetEnv scD with queue_e := 5 } : EnvState).queue_w
                - min ({ resetEnv scD with queue_e := 5 } : EnvState).queue_w (flowOf cfgD scD)
            ∧ (serve_traffic cfgD scD { resetEnv scD with queue_e := 5 }).1.queue_n
              = ({ resetEnv scD with queue_e := 5 } : EnvState).queue_n
            ∧ (serve_traffic cfgD scD { resetEnv scD with queue_e := 5 }).1.queue_s
              = ({ resetEnv scD with queue_e := 5 } : EnvState).queue_s
            ∧ (serve_traffic cfgD scD { resetEnv scD with queue_e := 5 }).2
              = min ({ resetEnv scD with queue_e := 5 } : EnvState).queue_e (flowOf cfgD scD)
                + min ({ resetEnv scD with queue_e := 5 } : EnvState).queue_w (flowOf cfgD scD))
        ∧ (({ resetEnv scD with queue_e := 5 } : EnvState).phase = 1 →
            (serve_traffic cfgD scD { resetEnv scD with queue_e := 5 }).1.queue_n
              = ({ resetEnv scD with queue_e := 5 } : EnvState).queue_n
                - min ({ resetEnv scD with queue_e := 5 } : EnvState).queue_n (flowOf cfgD scD)
            ∧ (serve_traffic cfgD scD { resetEnv scD with queue_e := 5 }).1.queue_s
              = ({ resetEnv scD with queue_e := 5 } : EnvState).queue_s
                - min ({ resetEnv scD with queue_e := 5 } : EnvState).queue_s (flowOf cfgD scD)
            ∧ (serve_traffic cfgD scD { resetEnv scD with queue_e := 5 }).1.queue_e
              = ({ resetEnv scD with queue_e := 5 } : EnvState).queue_e
            ∧ (serve_traffic cfgD scD { resetEnv scD with queue_e := 5 }).1.queue_w
              = ({ resetEnv scD with queue_e := 5 } : EnvState).queue_w
            ∧ (serve_traffic cfgD scD { resetEnv scD with queue_e := 5 }).2
              = min ({ resetEnv scD with queue_e := 5 } : EnvState).queue_n (flowOf cfgD scD)
                + min ({ resetEnv scD with queue_e := 5 } : EnvState).queue_s (flowOf cfgD scD))) :=
  ⟨by decide, by decide, by decide, by decide,
    c5_serve_traffic cfgD scD { resetEnv scD with queue_e := 5 }
      (by decide) (by decide) (by decide) (by decide)⟩

/-- C6: the step reward equals throughput_reward * throughput minus
queue_penalty times the post-serve queue total, minus switch_penalty times
the switched flag, minus fairness_weight times the fairness gap, minus
safety_weight times the safety violation; the gap is the absolute
difference of the two average waits, each average being the pair's
cumulative wait after this step's accumulation divided by step_count, and
the accumulation adds the current (post-serve) queue lengths. -/
theorem c6_reward (cfg : Config) (s : EnvState) (a : ℤ) (r : StepRand)
    (sc : ScenarioData) (s' : EnvState) (res : StepRes)
    (hsc : s.last_scen = some sc)
    (hstep : stepFn cfg s a r = some (s', res)) :
    res.reward
      = cfg.throughput_reward * (res.throughput : ℚ)
        - cfg.queue_penalty
            * ((s'.queue_n + s'.queue_s + s'.queue_e + s'.queue_w : ℤ) : ℚ)
        - cfg.switch_penalty * (if a ≠ s.phase then 1 else 0)
        - cfg.fairness_weight * res.fairness_gap
        - cfg.safety_weight * (res.safety_violation : ℚ)
    ∧ res.fairness_gap = |res.avg_wait_ns - res.avg_wait_ew|
    ∧ res.avg_wait_ns = (s'.cum_wait_n + s'.cum_wait_s) / ((s'.step_count : ℕ) : ℚ)
    ∧ res.avg_wait_ew = (s'.cum_wait_e + s'.cum_wait_w) / ((s'.step_count : ℕ) : ℚ)
    ∧ s'.step_count = s.step_count + 1
    ∧ s'.cum_wait_n = s.cum_wait_n + (s'.queue_n : ℚ)
    ∧ s'.cum_wait_s = s.cum_wait_s + (s'.queue_s : ℚ)
    ∧ s'.cum_wait_e = s.cum_wait_e + (s'.queue_e : ℚ)
    ∧ s'.cum_wait_w = s.cum_wait_w + (s'.queue_w : ℚ) := by
  obtain ⟨hs', hres⟩ := stepFn_inv cfg s a r sc s' res hsc hstep
  subst hs' hres
  refine ⟨stepCore_res_reward cfg sc s a r, stepCore_res_gap cfg sc s a r, ?_, ?_,
    stepCore_fst_step_count cfg sc s a r,
    stepCore_fst_cum_wait_n cfg sc s a r, stepCore_fst_cum_wait_s cfg sc s a r,
    stepCore_fst_cum_wait_e cfg sc s a r, stepCore_fst_cum_wait_w cfg sc s a r⟩
  · rw [stepCore_fst_step_count, stepCore_res_avg_ns]
  · rw [stepCore_fst_step_count, stepCore_res_avg_ew]

/-- C6 (witness): the reward decomposition at the concrete reset state with
a switch request. -/
theorem c6_reward_witness :
    (resetEnv scD).last_scen = some scD
    ∧ stepFn cfgD (resetEnv scD) 1 rQuietD
        = some ((stepCore cfgD scD (resetEnv scD) 1 rQuietD).1,
                (stepCore cfgD scD (resetEnv scD) 1 rQuietD).2)
    ∧ ((stepCore cfgD scD (resetEnv scD) 1 rQuietD).2.reward
        = cfgD.throughput_reward * ((stepCore cfgD scD (resetEnv scD) 1 rQuietD).2.throughput : ℚ)
          - cfgD.queue_penalty
              * (((stepCore cfgD scD (resetEnv scD) 1 rQuietD).1.queue_n
                  + (stepCore cfgD scD (resetEnv scD) 1 rQuietD).1.queue_s
                  + (stepCore cfgD scD (resetEnv scD) 1 rQuietD).1.queue_e
                  + (stepCore cfgD scD (resetEnv scD) 1 rQuietD).1.queue_w : ℤ) : ℚ)
          - cfgD.switch_penalty * (if (1 : ℤ) ≠ (resetEnv scD).phase then 1 else 0)
          - cfgD.fairness_weight * (stepCore cfgD scD (resetEnv scD) 1 rQuietD).2.fairness_gap
          - cfgD.safety_weight
              * ((stepCore cfgD scD (resetEnv scD) 1 rQuietD).2.safety_violation : ℚ)) := by
  obtain ⟨h1, -, -, -, -, -, -, -, -⟩ :=
    c6_reward cfgD (resetEnv scD) 1 rQuietD scD
      (stepCore cfgD scD (resetEnv scD) 1 rQuietD).1
      (stepCore cfgD scD (resetEnv scD) 1 rQuietD).2 rfl rfl
  exact ⟨rfl, rfl, h1⟩

/-- C7: a step keeps every queue length inside the closed interval from 0
to max_queue: the spawn increment is clamped to max_queue and the serve
decrement never drives a queue below 0. -/
theorem c7_queue_bounds (cfg : Config) (s : EnvState) (a : ℤ) (r : StepRand)
    (sc : ScenarioData) (s' : EnvState) (res : StepRes)
    (hsc : s.last_scen = some sc)
    (hstep : stepFn cfg s a r = some (s', res))
    (hn : 0 ≤ s.queue_n ∧ s.queue_n ≤ cfg.max_queue)
    (hs : 0 ≤ s.queue_s ∧ s.queue_s ≤ cfg.max_queue)
    (he : 0 ≤ s.queue_e ∧ s.queue_e ≤ cfg.max_queue)
    (hw : 0 ≤ s.queue_w ∧ s.queue_w ≤ cfg.max_queue) :
    (0 ≤ s'.queue_n ∧ s'.queue_n ≤ cfg.max_queue)
    ∧ (0 ≤ s'.queue_s ∧ s'.queue_s ≤ cfg.max_queue)
    ∧ (0 ≤ s'.queue_e ∧ s'.queue_e ≤ cfg.max_queue)
    ∧ (0 ≤ s'.queue_w ∧ s'.queue_w ≤ cfg.max_queue) := by
  obtain ⟨hs', hres⟩ := stepFn_inv cfg s a r sc s' res hsc hstep
  subst hs' hres
  rw [stepCore_fst_queue_n, stepCore_fst_queue_s, stepCore_fst_queue_e,
    stepCore_fst_queue_w]
  have hf : 1 ≤ flowOf cfg sc := le_max_left 1 _
  split_ifs <;> omega

/-- C7 (witness): the queue bounds applied to the concrete reset state,
whose queues are all zero. -/
theorem c7_queue_bounds_witness :
    (resetEnv scD).last_scen = some scD
    ∧ stepFn cfgD (resetEnv scD) 0 rFastNSD
        = some ((stepCore cfgD scD (resetEnv scD) 0 rFastNSD).1,
                (stepCore cfgD scD (resetEnv scD) 0 rFastNSD).2)
    ∧ (0 ≤ (resetEnv scD).queue_n ∧ (resetEnv scD).queue_n ≤ cfgD.max_queue)
    ∧ (0 ≤ (resetEnv scD).queue_s ∧ (resetEnv scD).queue_s ≤ cfgD.max_queue)
    ∧ (0 ≤ (resetEnv scD).queue_e ∧ (resetEnv scD).queue_e ≤ cfgD.max_queue)
    ∧ (0 ≤ (resetEnv scD).queue_w ∧ (resetEnv scD).queue_w ≤ cfgD.max_queue)
    ∧ ((0 ≤ (stepCore cfgD scD (resetEnv scD) 0 rFastNSD).1.queue_n
          ∧ (stepCore cfgD scD (resetEnv scD) 0 rFastNSD).1.queue_n ≤ cfgD.max_queue)
        ∧ (0 ≤ (stepCore cfgD scD (resetEnv scD) 0 rFastNSD).1.queue_s
          ∧ (stepCore cfgD scD (resetEnv scD) 0 rFastNSD).1.queue_s ≤ cfgD.max_queue)
        ∧ (0 ≤ (stepCore cfgD scD (resetEnv scD) 0 rFastNSD).1.queue_e
          ∧ (stepCore cfgD scD (resetEnv scD) 0 rFastNSD).1.queue_e ≤ cfgD.max_queue)
        ∧ (0 ≤ (stepCore cfgD scD (resetEnv scD) 0 rFastNSD).1.queue_w
          ∧ (stepCore cfgD scD (resetEnv scD) 0 rFastNSD).1.queue_w ≤ cfgD.max_queue)) :=
  ⟨rfl, rfl, by decide, by decide, by decide, by decide,
    c7_queue_bounds cfgD (resetEnv scD) 0 rFastNSD scD _ _ rfl rfl
      (by decide) (by decide) (by decide) (by decide)⟩

/-- C8: with a sampled scenario and a positive min_green_steps, the
observation is the 9-component vector of the four queue fractions, the
phase, the clamped hold-time fraction with divisor min_green_steps, the
scenario's visibility and fast-car probability, and the indicator of
ew_rate exceeding ns_rate. -/
theorem c8_observation (cfg : Config) (s : EnvState) (sc : ScenarioData)
    (hsc : s.last_scen = some sc) (hmgs : 1 ≤ cfg.min_green_steps)
    (hph : s.phase = 0 ∨ s.phase = 1) :
    get_obs cfg s = some
      [ (s.queue_n : ℚ) / (cfg.max_queue : ℚ)
      , (s.queue_s : ℚ) / (cfg.max_queue : ℚ)
      , (s.queue_e : ℚ) / (cfg.max_queue : ℚ)
      , (s.queue_w : ℚ) / (cfg.max_queue : ℚ)
      , (s.phase : ℚ)
      , min ((s.time_since_switch : ℚ) / (cfg.min_green_steps : ℚ)) 1
      , sc.visibility
      , sc.fast_car_prob
      , if sc.ew_rate > sc.ns_rate then 1 else 0 ]
    ∧ (obsList cfg sc s).length = 9 := by
  have hmax : max 1 cfg.min_green_steps = cfg.min_green_steps := by omega
  exact ⟨by simp [get_obs, hsc, obsList, hmax], rfl⟩

/-- C8 (witness): the observation characterization at the concrete
NS-green state. -/
theorem c8_observation_witness :
    sNSGreenD.last_scen = some scD
    ∧ 1 ≤ cfgD.min_green_steps
    ∧ (sNSGreenD.phase = 0 ∨ sNSGreenD.phase = 1)
    ∧ (get_obs cfgD sNSGreenD = some
        [ (sNSGreenD.queue_n : ℚ) / (cfgD.max_queue : ℚ)
        , (sNSGreenD.queue_s : ℚ) / (cfgD.max_queue : ℚ)
        , (sNSGreenD.queue_e : ℚ) / (cfgD.max_queue : ℚ)
        , (sNSGreenD.queue_w : ℚ) / (cfgD.max_queue : ℚ)
        , (sNSGreenD.phase : ℚ)
        , min ((sNSGreenD.time_since_switch : ℚ) / (cfgD.min_green_steps : ℚ)) 1
        , scD.visibility
        , scD.fast_car_prob
        , if scD.ew_rate > scD.ns_rate then 1 else 0 ]
      ∧ (obsList cfgD scD sNSGreenD).length = 9) :=
  ⟨rfl, by decide, Or.inr rfl,
    c8_observation cfgD sNSGreenD scD rfl (by decide) (Or.inr rfl)⟩

/-- C10: the hold-time component of the observation divides by the maximum
of 1 and min_green_steps, so the divisor is positive even for the
min_green_steps = 0 configuration, the observation is always produced once
a scenario is present, and with min_green_steps = 0 the observation agrees
with the min_green_steps = 1 one. -/
theorem c10_observation_total (cfg : Config) (s : EnvState)
    (h0 : cfg.min_green_steps = 0) :
    (0 : ℚ) < ((max 1 cfg.min_green_steps : ℕ) : ℚ)
    ∧ (∀ sc : ScenarioData, s.last_scen = some sc
        → get_obs cfg s = some (obsList cfg sc s))
    ∧ get_obs cfg s = get_obs { cfg with min_green_steps := 1 } s := by
  refine ⟨by positivity, ?_, ?_⟩
  · intro sc h
    simp [get_obs, h]
  · cases h : s.last_scen <;> simp [get_obs, h, obsList, h0]

/-- C10 (witness): totality of the observation at a zero min_green_steps
configuration. -/
theorem c10_observation_total_witness :
    ({ cfgD with min_green_steps := 0 } : Config).min_green_steps = 0
    ∧ ((0 : ℚ) < ((max 1 ({ cfgD with min_green_steps := 0 } : Config).min_green_steps : ℕ) : ℚ)
        ∧ (∀ sc : ScenarioData, (resetEnv scD).last_scen = some sc
            → get_obs { cfgD with min_green_steps := 0 } (resetEnv scD)
              = some (obsList { cfgD with min_green_steps := 0 } sc (resetEnv scD)))
        ∧ get_obs { cfgD with min_green_steps := 0 } (resetEnv scD)
            = get_obs { { cfgD with min_green_steps := 0 } with min_green_steps := 1 }
                (resetEnv scD)) :=
  ⟨rfl, c10_observation_total { cfgD with min_green_steps := 0 } (resetEnv scD) rfl⟩

/-- C9 (counterexample): the action 2 lies outside the action space, yet
step raises no error: it succeeds and writes 2 into the phase, mutating the
episode state. -/
theorem c9_invalid_action_counterexample :
    (2 : ℤ) ≠ 0 ∧ (2 : ℤ) ≠ 1
    ∧ (stepFn cfgD (resetEnv scD) 2 rQuietD).isSome = true
    ∧ (stepFn cfgD (resetEnv scD) 2 rQuietD).map (fun p => p.1.phase) = some 2
    ∧ (resetEnv scD).phase = 0 := by
  refine ⟨by decide, by decide, rfl, ?_, rfl⟩
  norm_num [stepFn, stepCore, early_flag, phase_update, bump_collisions, spawn_traffic,
    serve_traffic, update_waits, obsList, flowOf, pyRound, resetEnv, freshState,
    cfgD, scD, rQuietD]

/-- C9 (amended): an action outside the set of the two phases is accepted
like any other integer: since it differs from the current phase the state
machine switches to it, writing the raw action into the phase, resetting the
hold timer, and advancing the step counter. -/
theorem c9_invalid_action (cfg : Config) (s : EnvState) (a : ℤ) (r : StepRand)
    (sc : ScenarioData) (hsc : s.last_scen = some sc)
    (ha0 : a ≠ 0) (ha1 : a ≠ 1) (hph : s.phase = 0 ∨ s.phase = 1) :
    ∃ s' res, stepFn cfg s a r = some (s', res)
      ∧ s'.phase = a ∧ s'.time_since_switch = 0
      ∧ s'.step_count = s.step_count + 1 := by
  have hne : a ≠ s.phase := by rcases hph with h | h <;> rw [h] <;> assumption
  refine ⟨(stepCore cfg sc s a r).1, (stepCore cfg sc s a r).2,
    stepFn_eq_some cfg s a r sc hsc, ?_, ?_, stepCore_fst_step_count cfg sc s a r⟩
  · rw [stepCore_fst_phase, if_pos hne]
  · rw [stepCore_fst_time_since_switch, if_pos hne]

/-- C9 (witness): the accepted out-of-range action at the concrete reset
state. -/
theorem c9_invalid_action_witness :
    (resetEnv scD).last_scen = some scD
    ∧ (2 : ℤ) ≠ 0 ∧ (2 : ℤ) ≠ 1
    ∧ ((resetEnv scD).phase = 0 ∨ (resetEnv scD).phase = 1)
    ∧ (∃ s' res, stepFn cfgD (resetEnv scD) 2 rQuietD = some (s', res)
        ∧ s'.phase = 2 ∧ s'.time_since_switch = 0
        ∧ s'.step_count = (resetEnv scD).step_count + 1) :=
  ⟨rfl, by decide, by decide, Or.inl rfl,
    c9_invalid_action cfgD (resetEnv scD) 2 rQuietD scD rfl
      (by decide) (by decide) (Or.inl rfl)⟩

lemma runFrom_nil (cfg : Config) (s : EnvState) : runFrom cfg s [] = (s, []) := rfl

lemma runFrom_cons (cfg : Config) (s : EnvState) (a : ℤ) (r : StepRand)
    (rest : List (ℤ × StepRand)) :
    runFrom cfg s ((a, r) :: rest)
      = match stepFn cfg s a r with
        | none => (s, [])
        | some (s', res) =>
          if res.terminated || res.truncated then (s', [res])
          else ((runFrom cfg s' rest).1, res :: (runFrom cfg s' rest).2) := rfl

lemma runFrom_cons_some (cfg : Config) (s s' : EnvState) (res : StepRes) (a : ℤ)
    (r : StepRand) (rest : List (ℤ × StepRand))
    (h : stepFn cfg s a r = some (s', res)) :
    runFrom cfg s ((a, r) :: rest)
      = if res.terminated || res.truncated then (s', [res])
        else ((runFrom cfg s' rest).1, res :: (runFrom cfg s' rest).2) := by
  rw [runFrom_cons, h]

lemma runFrom_spec (cfg : Config) (sc : ScenarioData) :
    ∀ (inputs : List (ℤ × StepRand)) (s : EnvState),
      s.last_scen = some sc → s.collisions = 0 → s.step_count < cfg.max_steps →
      ∀ i, i < ((runFrom cfg s inputs).2).length →
        ((((runFrom cfg s inputs).2).getD i default).terminated = true
          ↔ (((runFrom cfg s inputs).2).getD i default).safety_violation ≠ 0)
        ∧ ((((runFrom cfg s inputs).2).getD i default).terminated = true
            → i + 1 = ((runFrom cfg s inputs).2).length
              ∧ (runFrom cfg s inputs).1.collisions = 1)
        ∧ ((((runFrom cfg s inputs).2).getD i default).truncated = true
            ↔ s.step_count + i + 1 = cfg.max_steps) := by
  intro inputs
  induction inputs with
  | nil =>
    intro s _ _ _ i hi
    simp [runFrom_nil] at hi
  | cons hd rest ih =>
    obtain ⟨a, r⟩ := hd
    intro s hsc hcol hlt i hi
    have hstep : stepFn cfg s a r = some (stepCore cfg sc s a r) :=
      stepFn_eq_some cfg s a r sc hsc
    rw [runFrom_cons_some cfg s (stepCore cfg sc s a r).1 (stepCore cfg sc s a r).2
      a r rest hstep] at hi ⊢
    by_cases hstop :
        ((stepCore cfg sc s a r).2.terminated || (stepCore cfg sc s a r).2.truncated) = true
    · simp only [hstop, if_pos] at hi ⊢
      simp only [List.length_singleton] at hi
      interval_cases i
      simp only [List.getD_cons_zero]
      refine ⟨stepCore_res_terminated cfg sc s a r, ?_, ?_⟩
      · intro ht
        have hv := (stepCore_res_terminated cfg sc s a r).mp ht
        refine ⟨rfl, ?_⟩
        rw [stepCore_fst_collisions, hcol, if_pos hv]
      · have := stepCore_res_truncated cfg sc s a r
        rw [this]
        omega
    · have hts := hstop
      simp only [Bool.or_eq_true, not_or, Bool.not_eq_true] at hts
      obtain ⟨ht, htr⟩ := hts
      rw [if_neg hstop] at hi ⊢
      have hv : (stepCore cfg sc s a r).2.safety_violation = 0 := by
        by_contra hv
        exact absurd ((stepCore_res_terminated cfg sc s a r).mpr hv) (by simp [ht])
      have hcol' : (stepCore cfg sc s a r).1.collisions = 0 := by
        rw [stepCore_fst_collisions, hcol, if_neg (by simp [hv])]
      have hsc' : (stepCore cfg sc s a r).1.last_scen = some sc := by
        rw [stepCore_fst_last_scen, hsc]
      have hcount : (stepCore cfg sc s a r).1.step_count = s.step_count + 1 :=
        stepCore_fst_step_count cfg sc s a r
      have hlt' : (stepCore cfg sc s a r).1.step_count < cfg.max_steps := by
        have h1 := stepCore_res_truncated cfg sc s a r
        rw [htr] at h1
        have : ¬ cfg.max_steps ≤ s.step_count + 1 := by
          intro hle
          exact absurd (h1.mpr hle) (by simp)
        omega
      cases i with
      | zero =>
        simp only [List.getD_cons_zero]
        refine ⟨by simp [ht, hv], by simp [ht], ?_⟩
        rw [htr]
        constructor
        · intro h; exact absurd h (by simp)
        · intro h; omega
      | succ j =>
        simp only [List.length_cons, Nat.succ_lt_succ_iff] at hi
        simp only [List.getD_cons_succ]
        obtain ⟨ih1, ih2, ih3⟩ := ih (stepCore cfg sc s a r).1 hsc' hcol' hlt' j hi
        refine ⟨ih1, ?_, ?_⟩
        · intro h
          obtain ⟨hlen, hc⟩ := ih2 h
          exact ⟨by simp [List.length_cons]; omega, hc⟩
        · rw [hcount] at ih3
          exact ih3.trans (by omega)

/-- C2: over any externally driven episode from reset (the driver stopping
at the first terminated or truncated step, as runFrom does), a step reports
terminated exactly when its safety violation is nonzero, any terminated
step is the last one of the episode and leaves the collision counter at 1,
and a step reports truncated exactly when its step count (its index plus
one) equals max_steps. -/
theorem c2_termination_truncation (cfg : Config) (sc : ScenarioData)
    (inputs : List (ℤ × StepRand)) (i : ℕ)
    (hM : 0 < cfg.max_steps)
    (hi : i < ((runFrom cfg (resetEnv sc) inputs).2).length) :
    ((((runFrom cfg (resetEnv sc) inputs).2).getD i default).terminated = true
      ↔ (((runFrom cfg (resetEnv sc) inputs).2).getD i default).safety_violation ≠ 0)
    ∧ ((((runFrom cfg (resetEnv sc) inputs).2).getD i default).terminated = true
        → i + 1 = ((runFrom cfg (resetEnv sc) inputs).2).length
          ∧ (runFrom cfg (resetEnv sc) inputs).1.collisions = 1)
    ∧ ((((runFrom cfg (resetEnv sc) inputs).2).getD i default).truncated = true
        ↔ i + 1 = cfg.max_steps) := by
  have h := runFrom_spec cfg sc inputs (resetEnv sc) rfl rfl (by simpa [resetEnv, freshState] using hM) i hi
  refine ⟨h.1, h.2.1, ?_⟩
  have h3 := h.2.2
  simpa [resetEnv, freshState] using h3

/-- C2 (witness): the termination property at a concrete one-step episode
that collides through a premature switch. -/
theorem c2_termination_truncation_witness :
    0 < cfgD.max_steps
    ∧ 0 < ((runFrom cfgD (resetEnv scD) [(1, rQuietD)]).2).length
    ∧ ((((runFrom cfgD (resetEnv scD) [(1, rQuietD)]).2.getD 0 default).terminated = true
          ↔ ((runFrom cfgD (resetEnv scD) [(1, rQuietD)]).2.getD 0 default).safety_violation
              ≠ 0)
        ∧ (((runFrom cfgD (resetEnv scD) [(1, rQuietD)]).2.getD 0 default).terminated = true
            → 0 + 1 = ((runFrom cfgD (resetEnv scD) [(1, rQuietD)]).2).length
              ∧ (runFrom cfgD (resetEnv scD) [(1, rQuietD)]).1.collisions = 1)
        ∧ (((runFrom cfgD (resetEnv scD) [(1, rQuietD)]).2.getD 0 default).truncated = true
            ↔ 0 + 1 = cfgD.max_steps)) :=
  ⟨by decide, by decide,
    c2_termination_truncation cfgD scD [(1, rQuietD)] 0 (by decide) (by decide)⟩

/-- C3 (witness): the amended invalid-state behaviour at concrete inputs:
before any reset the scenario is missing and step fails, and after a reset
step never fails. -/
theorem c3_invalid_state_witness :
    (stepFn cfgD freshState 0 rQuietD = none ↔ freshState.last_scen = none)
    ∧ (∀ sc : ScenarioData, stepFn cfgD (resetEnv sc) 0 rQuietD ≠ none) :=
  c3_invalid_state cfgD freshState 0 rQuietD
